import Mathlib

/-!
Verification of the UTM telemetry converter (`src/custom/src/UTMConverter.cc`).

The converter reads a binary telemetry log (8-byte timestamp, framed
mavlink message, repeated), interprets three message kinds into a track of
position/speed samples, and serializes the track to a JSON file.

Shallow embedding conventions:
* `quint64` timestamps are `Nat` (values produced by `parseTimestamp` are
  below `2^64` when the input bytes are bytes).
* `double` sample fields are `ℚ`; the divisions by `1E7`, `1000.0` and
  `1000000.0` are exact rational divisions.
* A `float` that may be NaN (`vfr_hud.groundspeed`) is a rational paired
  with an `isNaN` flag; `qIsNaN` reads the flag.
* File I/O is abstracted to booleans (channel available, source opens,
  destination opens) and to outcome flags (serialization invoked,
  destination removed); the byte-level mavlink framing is abstracted to
  the list of (decoded message, following timestamp) pairs the reader
  would produce, matching `_readNextMavlinkMessage`'s contract.
-/

namespace UTM

/-- An 8-byte input to the timestamp codec, one `Fin 256` per byte,
`b0` first on the wire. -/
structure Bytes8 where
  b0 : Fin 256
  b1 : Fin 256
  b2 : Fin 256
  b3 : Fin 256
  b4 : Fin 256
  b5 : Fin 256
  b6 : Fin 256
  b7 : Fin 256

/-- Model of `qFromBigEndian` on the 8 wire bytes: big-endian unsigned 64-bit value. -/
def beVal (b : Bytes8) : ℕ :=
  (b.b0 : ℕ) * 72057594037927936 + (b.b1 : ℕ) * 281474976710656 +
  (b.b2 : ℕ) * 1099511627776 + (b.b3 : ℕ) * 4294967296 +
  (b.b4 : ℕ) * 16777216 + (b.b5 : ℕ) * 65536 + (b.b6 : ℕ) * 256 + (b.b7 : ℕ)

/-- The little-endian (byte-order-reversed) reading of the same 8 bytes. -/
def leVal (b : Bytes8) : ℕ :=
  (b.b7 : ℕ) * 72057594037927936 + (b.b6 : ℕ) * 281474976710656 +
  (b.b5 : ℕ) * 1099511627776 + (b.b4 : ℕ) * 4294967296 +
  (b.b3 : ℕ) * 16777216 + (b.b2 : ℕ) * 65536 + (b.b1 : ℕ) * 256 + (b.b0 : ℕ)

/-- Model of `qbswap` on an unsigned 64-bit value: reverse the eight base-256 digits. -/
def bswap64 (n : ℕ) : ℕ :=
  (n % 256) * 72057594037927936 + (n / 256 % 256) * 281474976710656 +
  (n / 65536 % 256) * 1099511627776 + (n / 16777216 % 256) * 4294967296 +
  (n / 4294967296 % 256) * 16777216 + (n / 1099511627776 % 256) * 65536 +
  (n / 281474976710656 % 256) * 256 + (n / 72057594037927936 % 256)

/-- Model of `UTMConverter::_parseTimestamp`: read the bytes big-endian; if the value
exceeds the current wall-clock time (milliseconds since epoch times 1000),
byte-swap it, else keep it. `nowMSecs` stands for
`QDateTime::currentMSecsSinceEpoch()`. -/
def parseTimestamp (b : Bytes8) (nowMSecs : ℕ) : ℕ :=
  let timestamp := beVal b
  let currentTimestamp := nowMSecs * 1000
  if timestamp > currentTimestamp then bswap64 timestamp else timestamp

theorem beVal_lt (b : Bytes8) : beVal b < 18446744073709551616 := by
  obtain ⟨⟨a0, h0⟩, ⟨a1, h1⟩, ⟨a2, h2⟩, ⟨a3, h3⟩,
    ⟨a4, h4⟩, ⟨a5, h5⟩, ⟨a6, h6⟩, ⟨a7, h7⟩⟩ := b
  simp only [beVal]
  omega

set_option maxHeartbeats 2000000 in
theorem bswap64_beVal (b : Bytes8) : bswap64 (beVal b) = leVal b := by
  obtain ⟨⟨a0, h0⟩, ⟨a1, h1⟩, ⟨a2, h2⟩, ⟨a3, h3⟩,
    ⟨a4, h4⟩, ⟨a5, h5⟩, ⟨a6, h6⟩, ⟨a7, h7⟩⟩ := b
  simp only [bswap64, beVal, leVal]
  omega

/-- C4: for every 8-byte input, timestamp decoding reads the bytes as a
big-endian unsigned 64-bit integer `t`, compares `t` with the current
wall-clock time in microseconds since epoch, and returns the
byte-order-reversed reading of the bytes when `t` is greater, otherwise
`t` unchanged; it is a total function, so decoding never fails. -/
theorem parseTimestamp_spec (b : Bytes8) (nowMSecs : ℕ) :
    parseTimestamp b nowMSecs =
      if beVal b > nowMSecs * 1000 then leVal b else beVal b := by
  simp only [parseTimestamp]
  split
  · exact bswap64_beVal b
  · rfl

/-- Model of `mavlink_gps_raw_int_t`, the fields the converter reads (`lon` is
present in the wire message but never read by the converter). -/
structure GpsRawInt where
  fix_type : ℕ
  lat : ℤ
  lon : ℤ
  alt : ℤ
deriving DecidableEq

/-- Model of `mavlink_global_position_int_t`, the fields the converter reads. -/
structure GlobalPositionInt where
  lat : ℤ
  lon : ℤ
  alt : ℤ
deriving DecidableEq

/-- Model of `mavlink_vfr_hud_t.groundspeed`: a float that may be NaN, modelled as
a rational plus a NaN flag (`qIsNaN` reads the flag). -/
structure VfrHud where
  groundspeedIsNaN : Bool
  groundspeed : ℚ
deriving DecidableEq

/-- A decoded `mavlink_message_t` as dispatched on `message.msgid`:
the three handled ids, or any other id (ignored). -/
inductive MavMessage where
  | gpsRawInt (m : GpsRawInt)
  | globalPositionInt (m : GlobalPositionInt)
  | vfrHud (m : VfrHud)
  | other (msgid : ℕ)
deriving DecidableEq

/-- Model of `UTM_LogItem`: one track sample. -/
structure UTM_LogItem where
  time : ℚ
  lon : ℚ
  lat : ℚ
  alt : ℚ
  speed : ℚ
deriving DecidableEq

/-- The converter's mutable members that the message handlers touch. -/
structure ConverterState where
  curTimeUSecs : ℕ
  startDTG : ℕ
  lastSpeed : ℚ
  gpsRawIntMessageAvailable : Bool
  globalPositionIntMessageAvailable : Bool
  logItems : List UTM_LogItem
deriving DecidableEq

/-- Member initialization in `UTMConverter::UTMConverter()`. -/
def initState : ConverterState :=
  { curTimeUSecs := 0
    startDTG := 0
    lastSpeed := 0
    gpsRawIntMessageAvailable := false
    globalPositionIntMessageAvailable := false
    logItems := [] }

/-- Value of `GPS_FIX_TYPE_3D_FIX` from the mavlink `GPS_FIX_TYPE` enum. -/
def GPS_FIX_TYPE_3D_FIX : ℕ := 3

/-- Model of `UTMConverter::_compareItem`: field-wise comparison of two samples on
lon, lat, alt and speed; `time` is not compared. -/
def compareItem (logItem1 logItem2 : UTM_LogItem) : Bool :=
  if logItem1.lon ≠ logItem2.lon then false
  else if logItem1.lat ≠ logItem2.lat then false
  else if logItem1.alt ≠ logItem2.alt then false
  else if logItem1.speed ≠ logItem2.speed then false
  else true

/-- The append block shared verbatim by `_handleGpsRawInt` and
`_handleGlobalPositionInt`: append `logItem` unless the list is non-empty
and its last element compares equal. -/
def appendDedup (items : List UTM_LogItem) (logItem : UTM_LogItem) :
    List UTM_LogItem :=
  match items.getLast? with
  | some last => if compareItem last logItem = false then items ++ [logItem] else items
  | none => items ++ [logItem]

/-- The sample `_handleGpsRawInt` builds: `gpsRawInt.lat` is used for both
`lon` and `lat` (the longitude field of the message is dropped). -/
def gpsRawCandidate (st : ConverterState) (m : GpsRawInt) : UTM_LogItem :=
  { lon := (m.lat : ℚ) / 10000000
    lat := (m.lat : ℚ) / 10000000
    alt := (m.alt : ℚ) / 1000
    time := ((st.curTimeUSecs : ℚ) - (st.startDTG : ℚ)) / 1000000
    speed := st.lastSpeed }

/-- Model of `UTMConverter::_handleGpsRawInt`. -/
def handleGpsRawInt (st : ConverterState) (m : GpsRawInt) : ConverterState :=
  let st := { st with gpsRawIntMessageAvailable := true }
  if st.globalPositionIntMessageAvailable = false then
    if m.fix_type ≥ GPS_FIX_TYPE_3D_FIX then
      { st with logItems := appendDedup st.logItems (gpsRawCandidate st m) }
    else st
  else st

/-- The sample `_handleGlobalPositionInt` builds. -/
def globalPositionCandidate (st : ConverterState) (m : GlobalPositionInt) :
    UTM_LogItem :=
  { lon := (m.lon : ℚ) / 10000000
    lat := (m.lat : ℚ) / 10000000
    alt := (m.alt : ℚ) / 1000
    time := ((st.curTimeUSecs : ℚ) - (st.startDTG : ℚ)) / 1000000
    speed := st.lastSpeed }

/-- Model of `UTMConverter::_handleGlobalPositionInt`. -/
def handleGlobalPositionInt (st : ConverterState) (m : GlobalPositionInt) :
    ConverterState :=
  let st := { st with globalPositionIntMessageAvailable := true }
  { st with logItems := appendDedup st.logItems (globalPositionCandidate st m) }

/-- Model of `UTMConverter::_handleVfrHud`. -/
def handleVfrHud (st : ConverterState) (m : VfrHud) : ConverterState :=
  { st with lastSpeed := if m.groundspeedIsNaN then 0 else m.groundspeed }

/-- Model of `UTMConverter::_newMavlinkMessage`: set `_startDTG` on the first
message (while it is still zero), record the message's timestamp, then
dispatch on the message id. -/
def newMavlinkMessage (st : ConverterState) (curTimeUSecs : ℕ)
    (message : MavMessage) : ConverterState :=
  let st := if st.startDTG = 0 then { st with startDTG := curTimeUSecs } else st
  let st := { st with curTimeUSecs := curTimeUSecs }
  match message with
  | .gpsRawInt m => handleGpsRawInt st m
  | .globalPositionInt m => handleGlobalPositionInt st m
  | .vfrHud m => handleVfrHud st m
  | .other _ => st

/-- Fold `_newMavlinkMessage` over a list of (timestamp, message) pairs. -/
def processAll (st : ConverterState) (ms : List (ℕ × MavMessage)) :
    ConverterState :=
  ms.foldl (fun s tm => newMavlinkMessage s tm.1 tm.2) st

/-- Run the interpreter from the freshly constructed converter. -/
def runConv (ms : List (ℕ × MavMessage)) : ConverterState :=
  processAll initState ms

/-- The message stream as `_readNextMavlinkMessage` delivers it: each
complete decoded message paired with the timestamp parsed from the 8 bytes
that follow it; the list ends where the source file stops yielding a
complete message. -/
def MessageStream : Type := List (MavMessage × ℕ)

/-- The `while(true)` read loop of `convertTelemetryFile`: each decoded
message is interpreted with the timestamp read *before* it (`_curTimeUSecs`)
and the timestamp following it becomes the next `_curTimeUSecs`; a parsed
timestamp of 0 (also returned at end of file) breaks the loop, dropping the
message it follows. -/
def convLoop (st : ConverterState) (curTimeUSecs : ℕ) :
    List (MavMessage × ℕ) → ConverterState
  | [] => st
  | (message, nextTimeUSecs) :: rest =>
    if nextTimeUSecs = 0 then st
    else convLoop (newMavlinkMessage st curTimeUSecs message) nextTimeUSecs rest

/-- Observable outcome of one `convertTelemetryFile` call: the returned
boolean, the converter state after the read loop, whether the serialization
block (header, items, keys, footer) ran, and whether the destination file
was removed at the end. -/
structure ConvOutcome where
  success : Bool
  finalState : ConverterState
  serialized : Bool
  dstRemoved : Bool
deriving DecidableEq

/-- Model of `UTMConverter::convertTelemetryFile` on a fresh converter, with file
system effects abstracted: `chanAvail` is whether a mavlink channel is held
or can be reserved, `srcOpens`/`dstOpens` whether the two `QFile::open`
calls succeed, `ts0` the timestamp parsed from the first 8 bytes of the
source, and `records` the message stream the reader produces. The
serialization block runs iff `_logItems` is non-empty, and the destination
is removed iff `_logItems` is empty; the call returns true whenever all
three acquisitions succeeded. -/
def convertTelemetryFile (chanAvail srcOpens dstOpens : Bool) (ts0 : ℕ)
    (records : List (MavMessage × ℕ)) : ConvOutcome :=
  if chanAvail = false then
    { success := false, finalState := initState, serialized := false, dstRemoved := false }
  else if srcOpens = false then
    { success := false, finalState := initState, serialized := false, dstRemoved := false }
  else if dstOpens = false then
    { success := false, finalState := initState, serialized := false, dstRemoved := false }
  else
    let st := convLoop initState ts0 records
    { success := true
      finalState := st
      serialized := !st.logItems.isEmpty
      dstRemoved := st.logItems.isEmpty }

/-! ### Basic step lemmas -/

/-- The function `appendDedup` either keeps the list or appends exactly the candidate. -/
theorem appendDedup_cases (l : List UTM_LogItem) (c : UTM_LogItem) :
    appendDedup l c = l ∨ appendDedup l c = l ++ [c] := by
  unfold appendDedup
  cases l.getLast? with
  | none => exact Or.inr rfl
  | some last =>
    by_cases hc : compareItem last c = false
    · simp [hc]
    · simp [hc]

/-- One interpreter step either leaves the track alone or appends one sample. -/
theorem newMav_logItems_cases (st : ConverterState) (t : ℕ) (m : MavMessage) :
    (newMavlinkMessage st t m).logItems = st.logItems ∨
    ∃ c, (newMavlinkMessage st t m).logItems = st.logItems ++ [c] := by
  cases m with
  | gpsRawInt g =>
    simp only [newMavlinkMessage, handleGpsRawInt]
    split_ifs <;>
      first
        | exact Or.inl rfl
        | exact (appendDedup_cases _ _).imp id (fun h => ⟨_, h⟩)
  | globalPositionInt g =>
    simp only [newMavlinkMessage, handleGlobalPositionInt]
    split_ifs <;> exact (appendDedup_cases _ _).imp id (fun h => ⟨_, h⟩)
  | vfrHud v =>
    simp only [newMavlinkMessage, handleVfrHud]
    split_ifs <;> exact Or.inl rfl
  | other i =>
    simp only [newMavlinkMessage]
    split_ifs <;> exact Or.inl rfl

/-- One interpreter step preserves the "global position seen" flag once set. -/
theorem newMav_flag_mono (st : ConverterState) (t : ℕ) (m : MavMessage)
    (h : st.globalPositionIntMessageAvailable = true) :
    (newMavlinkMessage st t m).globalPositionIntMessageAvailable = true := by
  cases m <;>
    simp only [newMavlinkMessage, handleGpsRawInt, handleGlobalPositionInt,
      handleVfrHud] <;>
    split_ifs <;> simp_all

/-- Processing a GlobalPositionEstimate sets the flag. -/
theorem newMav_gpi_sets_flag (st : ConverterState) (t : ℕ) (g : GlobalPositionInt) :
    (newMavlinkMessage st t (.globalPositionInt g)).globalPositionIntMessageAvailable
      = true := by
  by_cases h : st.startDTG = 0 <;>
    simp [newMavlinkMessage, handleGlobalPositionInt, h]

/-- A whole run preserves the flag once set. -/
theorem processAll_flag_mono (ms : List (ℕ × MavMessage)) (st : ConverterState)
    (h : st.globalPositionIntMessageAvailable = true) :
    (processAll st ms).globalPositionIntMessageAvailable = true := by
  induction ms generalizing st with
  | nil => exact h
  | cons tm rest ih =>
    exact ih _ (newMav_flag_mono st tm.1 tm.2 h)

/-- With the flag set, a RawGpsFix step appends nothing. -/
theorem gpsRaw_noappend_of_flag (st : ConverterState) (t : ℕ) (r : GpsRawInt)
    (h : st.globalPositionIntMessageAvailable = true) :
    (newMavlinkMessage st t (.gpsRawInt r)).logItems = st.logItems := by
  simp only [newMavlinkMessage, handleGpsRawInt]
  split_ifs <;> simp_all

/-! ### Claim theorems (first batch) -/

/-- C9: processing an AirspeedHud message sets the last-speed value to the
message's ground-speed field (zero when NaN) and leaves both the track and
the position-source priority flag unchanged. -/
theorem vfrHud_frame_effect (st : ConverterState) (t : ℕ) (m : VfrHud) :
    (newMavlinkMessage st t (.vfrHud m)).lastSpeed
        = (if m.groundspeedIsNaN then 0 else m.groundspeed) ∧
    (newMavlinkMessage st t (.vfrHud m)).logItems = st.logItems ∧
    (newMavlinkMessage st t (.vfrHud m)).globalPositionIntMessageAvailable
        = st.globalPositionIntMessageAvailable := by
  simp only [newMavlinkMessage, handleVfrHud]
  split_ifs <;> simp_all

/-- C7: the conversion returns false exactly when no mavlink channel is
available, the source does not open, or the destination does not open; in
every other execution (empty track included) it returns true. -/
theorem convert_success_iff (chanAvail srcOpens dstOpens : Bool) (ts0 : ℕ)
    (records : List (MavMessage × ℕ)) :
    (convertTelemetryFile chanAvail srcOpens dstOpens ts0 records).success
      = (chanAvail && srcOpens && dstOpens) := by
  cases chanAvail <;> cases srcOpens <;> cases dstOpens <;>
    simp [convertTelemetryFile]

/-- C6: when a conversion that reached the read loop ends with an empty
track, the serialization block never runs and the destination file is
removed before the call returns. -/
theorem emptyTrack_no_serialization (ts0 : ℕ) (records : List (MavMessage × ℕ))
    (h : (convertTelemetryFile true true true ts0 records).finalState.logItems = []) :
    (convertTelemetryFile true true true ts0 records).serialized = false ∧
    (convertTelemetryFile true true true ts0 records).dstRemoved = true := by
  simp only [convertTelemetryFile, Bool.true_eq_false, if_false] at h ⊢
  simp [h]

theorem emptyTrack_no_serialization_witness :
    (convertTelemetryFile true true true 0 []).serialized = false ∧
    (convertTelemetryFile true true true 0 []).dstRemoved = true :=
  emptyTrack_no_serialization 0 [] rfl

/-- The read loop stops at a record whose trailing timestamp parses to 0,
without interpreting that record or anything after it. -/
theorem convLoop_zero_truncates (good : List (MavMessage × ℕ))
    (st : ConverterState) (cur : ℕ) (m : MavMessage)
    (rest : List (MavMessage × ℕ)) :
    convLoop st cur (good ++ (m, 0) :: rest) = convLoop st cur good := by
  induction good generalizing st cur with
  | nil => simp [convLoop]
  | cons r good' ih =>
    obtain ⟨m', next⟩ := r
    by_cases hn : next = 0 <;> simp [convLoop, hn, ih]

/-- C10: a decoded timestamp of 0 after a completely decoded message is the
end-of-stream sentinel: the conversion behaves exactly as if the stream had
ended before that message, so the message and everything after it are
discarded. -/
theorem zero_timestamp_ends_loop (chanAvail srcOpens dstOpens : Bool)
    (ts0 : ℕ) (good : List (MavMessage × ℕ)) (m : MavMessage)
    (rest : List (MavMessage × ℕ)) :
    convertTelemetryFile chanAvail srcOpens dstOpens ts0 (good ++ (m, 0) :: rest)
      = convertTelemetryFile chanAvail srcOpens dstOpens ts0 good := by
  cases chanAvail <;> cases srcOpens <;> cases dstOpens <;>
    simp [convertTelemetryFile, convLoop_zero_truncates]

/-! ### C1: the RawGpsFix candidate sample -/

/-- The track-start timestamp in effect while a message with timestamp `t`
is handled: `_startDTG`, set to `t` first when still zero. -/
def trackStart (st : ConverterState) (t : ℕ) : ℕ :=
  if st.startDTG = 0 then t else st.startDTG

/-- C1: while no GlobalPositionEstimate has been seen, a RawGpsFix with at
least a 3D lock makes the interpreter dedup-append a candidate whose `lon`
and `lat` are both the fix's `lat` field over 1e7, whose `alt` is the
fix's altitude over 1000, whose time is (message timestamp − track start
timestamp)/1e6, and whose speed is the last observed speed. -/
theorem gpsRawInt_builds_latlat_candidate (st : ConverterState) (t : ℕ)
    (m : GpsRawInt)
    (hflag : st.globalPositionIntMessageAvailable = false)
    (hfix : GPS_FIX_TYPE_3D_FIX ≤ m.fix_type) :
    (newMavlinkMessage st t (.gpsRawInt m)).logItems =
      appendDedup st.logItems
        { time := ((t : ℚ) - (trackStart st t : ℚ)) / 1000000
          lon := (m.lat : ℚ) / 10000000
          lat := (m.lat : ℚ) / 10000000
          alt := (m.alt : ℚ) / 1000
          speed := st.lastSpeed } := by
  by_cases h0 : st.startDTG = 0 <;>
    simp [newMavlinkMessage, handleGpsRawInt, gpsRawCandidate, trackStart,
      h0, hflag, hfix]

theorem gpsRawInt_builds_latlat_candidate_witness :
    (newMavlinkMessage initState 5 (.gpsRawInt ⟨3, 123, 456, 789⟩)).logItems =
      appendDedup initState.logItems
        { time := ((5 : ℚ) - ((trackStart initState 5 : ℕ) : ℚ)) / 1000000
          lon := ((123 : ℤ) : ℚ) / 10000000
          lat := ((123 : ℤ) : ℚ) / 10000000
          alt := ((789 : ℤ) : ℚ) / 1000
          speed := initState.lastSpeed } :=
  gpsRawInt_builds_latlat_candidate initState 5 ⟨3, 123, 456, 789⟩ rfl
    (by decide)

/-! ### C2: permanent suppression of RawGpsFix after GlobalPositionEstimate -/

/-- C2: after any GlobalPositionEstimate anywhere in the stream, every later
RawGpsFix step leaves the track unchanged, whatever its fix quality and
wherever it occurs. -/
theorem gpsRaw_suppressed_after_globalPosition (pre mid : List (ℕ × MavMessage))
    (tg : ℕ) (g : GlobalPositionInt) (tr : ℕ) (r : GpsRawInt) :
    (newMavlinkMessage
        (processAll initState (pre ++ (tg, .globalPositionInt g) :: mid))
        tr (.gpsRawInt r)).logItems
      = (processAll initState (pre ++ (tg, .globalPositionInt g) :: mid)).logItems := by
  apply gpsRaw_noappend_of_flag
  have hsplit :
      processAll initState (pre ++ (tg, .globalPositionInt g) :: mid)
        = processAll
            (newMavlinkMessage (processAll initState pre) tg (.globalPositionInt g))
            mid := by
    simp [processAll, List.foldl_append]
  rw [hsplit]
  exact processAll_flag_mono mid _ (newMav_gpi_sets_flag _ tg g)

/-! ### C3: adjacent-sample deduplication invariant -/

/-- Two samples differ in at least one of the four compared fields
(lon, lat, alt, speed); `time` plays no role. -/
def distinctPos (a b : UTM_LogItem) : Prop :=
  ¬(a.lon = b.lon ∧ a.lat = b.lat ∧ a.alt = b.alt ∧ a.speed = b.speed)

theorem compareItem_false_iff (a b : UTM_LogItem) :
    compareItem a b = false ↔ distinctPos a b := by
  unfold compareItem distinctPos
  split_ifs <;> simp_all

/-- The function `appendDedup` preserves the adjacent-distinct chain. -/
theorem appendDedup_chain (l : List UTM_LogItem) (c : UTM_LogItem)
    (h : List.Chain' distinctPos l) :
    List.Chain' distinctPos (appendDedup l c) := by
  unfold appendDedup
  cases hl : l.getLast? with
  | none =>
    have : l = [] := List.getLast?_eq_none_iff.mp hl
    subst this
    simp
  | some last =>
    by_cases hc : compareItem last c = false
    · simp only [hc, if_true]
      rw [List.chain'_append]
      refine ⟨h, List.chain'_singleton c, ?_⟩
      intro x hx y hy
      rw [hl] at hx
      simp at hx hy
      subst hx; subst hy
      exact (compareItem_false_iff last c).mp hc
    · simp [hc, h]

/-- One interpreter step preserves the adjacent-distinct chain. -/
theorem newMav_chain (st : ConverterState) (t : ℕ) (m : MavMessage)
    (h : List.Chain' distinctPos st.logItems) :
    List.Chain' distinctPos (newMavlinkMessage st t m).logItems := by
  cases m with
  | gpsRawInt g =>
    simp only [newMavlinkMessage, handleGpsRawInt]
    split_ifs <;> first
      | exact h
      | exact appendDedup_chain _ _ h
  | globalPositionInt g =>
    simp only [newMavlinkMessage, handleGlobalPositionInt]
    split_ifs <;> exact appendDedup_chain _ _ h
  | vfrHud v =>
    simp only [newMavlinkMessage, handleVfrHud]
    split_ifs <;> exact h
  | other i =>
    simp only [newMavlinkMessage]
    split_ifs <;> exact h

/-- A whole run preserves the adjacent-distinct chain. -/
theorem processAll_chain (ms : List (ℕ × MavMessage)) (st : ConverterState)
    (h : List.Chain' distinctPos st.logItems) :
    List.Chain' distinctPos (processAll st ms).logItems := by
  induction ms generalizing st with
  | nil => exact h
  | cons tm rest ih => exact ih _ (newMav_chain st tm.1 tm.2 h)

/-- C3: no track ever holds two adjacent samples equal on all of lon, lat,
alt and speed — the comparison ignores elapsed time — and two consecutive
GlobalPositionEstimate messages with identical fields (at any two
timestamps) yield exactly one appended sample. -/
theorem track_dedup_invariant :
    (∀ ms : List (ℕ × MavMessage),
      List.Chain' distinctPos (runConv ms).logItems) ∧
    (∀ (t1 t2 : ℕ) (g : GlobalPositionInt),
      (runConv [(t1, .globalPositionInt g),
                (t2, .globalPositionInt g)]).logItems.length = 1) := by
  constructor
  · intro ms
    exact processAll_chain ms initState (by simp [initState])
  · intro t1 t2 g
    by_cases ht : t1 = 0 <;>
      simp [runConv, processAll, newMavlinkMessage, handleGlobalPositionInt,
        globalPositionCandidate, appendDedup, compareItem, initState, ht]

/-! ### C5: elapsed time of the first sample -/

/-- Once the track is non-empty, later steps never change its head
(the track only grows at the back). -/
theorem processAll_head? (ms : List (ℕ × MavMessage)) (st : ConverterState)
    (h : st.logItems ≠ []) :
    (processAll st ms).logItems.head? = st.logItems.head? := by
  induction ms generalizing st with
  | nil => rfl
  | cons tm rest ih =>
    have hstep := newMav_logItems_cases st tm.1 tm.2
    rcases hstep with hstep | ⟨c, hstep⟩
    · have := ih (newMavlinkMessage st tm.1 tm.2) (by rw [hstep]; exact h)
      rw [show processAll st (tm :: rest)
          = processAll (newMavlinkMessage st tm.1 tm.2) rest from rfl]
      rw [this, hstep]
    · have hne : (newMavlinkMessage st tm.1 tm.2).logItems ≠ [] := by
        rw [hstep]; simp
      have := ih (newMavlinkMessage st tm.1 tm.2) hne
      rw [show processAll st (tm :: rest)
          = processAll (newMavlinkMessage st tm.1 tm.2) rest from rfl]
      rw [this, hstep]
      obtain ⟨a, l, hl⟩ := List.exists_cons_of_ne_nil h
      rw [hl]
      simp

/-- C5 counterexample: when the first message is an AirspeedHud at time 10
and a GlobalPositionEstimate follows at time 20, the first (and only)
sample's elapsed time is 10µs/1e6 = 1/100000 s, not 0. -/
theorem firstSample_time_not_always_zero :
    ((runConv [(10, .vfrHud ⟨false, 2⟩), (20, .globalPositionInt ⟨1, 2, 3⟩)]
      ).logItems.head?).map UTM_LogItem.time = some (1 / 100000) ∧
    ((1 : ℚ) / 100000) ≠ 0 := by
  constructor
  · simp only [runConv, processAll, List.foldl_cons, List.foldl_nil]
    norm_num [newMavlinkMessage, handleVfrHud, handleGlobalPositionInt,
      globalPositionCandidate, appendDedup, compareItem, initState]
  · norm_num

/-- C5 (amended): the first sample's elapsed time is 0 whenever the first
message of the sequence is the position-bearing message that produces it —
a leading GlobalPositionEstimate, or a leading RawGpsFix with at least a 3D
lock; when a non-position message comes first it need not be 0. -/
theorem firstSample_time_amended :
    (∀ (t : ℕ) (g : GlobalPositionInt) (ms : List (ℕ × MavMessage)),
      ((runConv ((t, .globalPositionInt g) :: ms)).logItems.head?).map
          UTM_LogItem.time = some 0) ∧
    (∀ (t : ℕ) (r : GpsRawInt) (ms : List (ℕ × MavMessage)),
      GPS_FIX_TYPE_3D_FIX ≤ r.fix_type →
      ((runConv ((t, .gpsRawInt r) :: ms)).logItems.head?).map
          UTM_LogItem.time = some 0) := by
  constructor
  · intro t g ms
    have h1 : (newMavlinkMessage initState t (.globalPositionInt g)).logItems
        = [{ time := 0
             lon := (g.lon : ℚ) / 10000000
             lat := (g.lat : ℚ) / 10000000
             alt := (g.alt : ℚ) / 1000
             speed := 0 }] := by
      simp [newMavlinkMessage, handleGlobalPositionInt, globalPositionCandidate,
        appendDedup, initState]
    rw [show runConv ((t, .globalPositionInt g) :: ms)
        = processAll (newMavlinkMessage initState t (.globalPositionInt g)) ms
        from rfl]
    rw [processAll_head? ms _ (by rw [h1]; simp), h1]
    rfl
  · intro t r ms hfix
    have h1 : (newMavlinkMessage initState t (.gpsRawInt r)).logItems
        = [{ time := 0
             lon := (r.lat : ℚ) / 10000000
             lat := (r.lat : ℚ) / 10000000
             alt := (r.alt : ℚ) / 1000
             speed := 0 }] := by
      simp [newMavlinkMessage, handleGpsRawInt, gpsRawCandidate,
        appendDedup, initState, hfix]
    rw [show runConv ((t, .gpsRawInt r) :: ms)
        = processAll (newMavlinkMessage initState t (.gpsRawInt r)) ms
        from rfl]
    rw [processAll_head? ms _ (by rw [h1]; simp), h1]
    rfl

theorem firstSample_time_amended_witness :
    ((runConv [(7, .gpsRawInt ⟨3, 11, 22, 33⟩)]).logItems.head?).map
        UTM_LogItem.time = some 0 :=
  firstSample_time_amended.2 7 ⟨3, 11, 22, 33⟩ [] (by decide)

/-! ### C8: assignment discipline of the track start timestamp -/

/-- The step `_newMavlinkMessage` writes `_startDTG` only while it is still zero. -/
theorem newMav_startDTG (st : ConverterState) (t : ℕ) (m : MavMessage) :
    (newMavlinkMessage st t m).startDTG
      = (if st.startDTG = 0 then t else st.startDTG) := by
  cases m <;> by_cases h : st.startDTG = 0 <;>
    simp only [newMavlinkMessage, handleGpsRawInt, handleGlobalPositionInt,
      handleVfrHud, h, if_true, if_false] <;>
    split_ifs <;> simp_all

/-- A nonzero `_startDTG` survives the rest of the run. -/
theorem processAll_startDTG (ms : List (ℕ × MavMessage)) (st : ConverterState)
    (h : st.startDTG ≠ 0) :
    (processAll st ms).startDTG = st.startDTG := by
  induction ms generalizing st with
  | nil => rfl
  | cons tm rest ih =>
    rw [show processAll st (tm :: rest)
        = processAll (newMavlinkMessage st tm.1 tm.2) rest from rfl]
    have hs : (newMavlinkMessage st tm.1 tm.2).startDTG = st.startDTG := by
      rw [newMav_startDTG]
      simp [h]
    rw [ih _ (by rw [hs]; exact h), hs]

/-- C8 counterexample: a run whose first processed message carries
timestamp 0 (the initial 8 bytes of the file parse to 0) ends with
`_startDTG = 5`, taken from the *second* message — so `_startDTG` is not
always assigned from the first message, and is assigned a second time. -/
theorem startDTG_reassigned_example :
    (convertTelemetryFile true true true 0
        [(.vfrHud ⟨false, 0⟩, 5), (.vfrHud ⟨false, 0⟩, 7)]
      ).finalState.startDTG = 5 ∧ (5 : ℕ) ≠ 0 := by
  decide

/-- C8 (amended): `_startDTG` is guarded by a while-zero test, so it is
set from the first processed message whose timestamp is nonzero and never
changes afterwards; in particular, whenever the first message's timestamp
is nonzero — the common case — it equals that timestamp for the whole
conversion. A first message with timestamp 0 leaves it zero and a later
message claims it. -/
theorem startDTG_first_nonzero_amended (t : ℕ) (m : MavMessage)
    (ms : List (ℕ × MavMessage)) (h : t ≠ 0) :
    (runConv ((t, m) :: ms)).startDTG = t := by
  have h1 : (newMavlinkMessage initState t m).startDTG = t := by
    rw [newMav_startDTG]
    simp [initState]
  rw [show runConv ((t, m) :: ms)
      = processAll (newMavlinkMessage initState t m) ms from rfl]
  rw [processAll_startDTG ms _ (by rw [h1]; exact h), h1]

theorem startDTG_first_nonzero_amended_witness :
    (runConv [(5, .other 0)]).startDTG = 5 :=
  startDTG_first_nonzero_amended 5 (.other 0) [] (by decide)

end UTM
